import Mathlib

/-
Verification of the Teslemetry integration (custom_components/teslemetry) against its
natural-language specification.  The Python sources are shallowly embedded: each
coordinator's `_async_update_data` becomes a pure Lean function over an explicit state,
dictionaries become association lists with Python-dict get/set semantics, exceptions
become an explicit error type, and entity command methods become functions returning the
list of vendor commands issued together with the outcome of the call.
-/

/- ### Python dictionaries

Association lists with Python semantics: lookup finds the first (unique) binding,
assignment replaces an existing binding in place or appends a new one at the end. -/

/-- Python `d[k]` / `d.get(k)`: the binding for `k`, if any. -/
def dget {α : Type} : List (String × α) → String → Option α
  | [], _ => none
  | (k, v) :: rest, key => if k = key then some v else dget rest key

/-- Python `d[k] = v`: replace the binding for `k` in place, else append it. -/
def dset {α : Type} : List (String × α) → String → α → List (String × α)
  | [], key, v => [(key, v)]
  | (k, w) :: rest, key, v =>
    if k = key then (k, v) :: rest else (k, w) :: dset rest key v

/-- Python `d.get(k, dflt)`. -/
def dgetD {α : Type} (d : List (String × α)) (key : String) (dflt : α) : α :=
  (dget d key).getD dflt

/-- Python `d.keys()` (in insertion order). -/
def dkeys {α : Type} (d : List (String × α)) : List String := d.map Prod.fst

/- ### JSON-like values (the shape of Teslemetry API responses) -/

/-- A JSON-like value, as found in vendor API responses and coordinator snapshots. -/
inductive JVal : Type
  | null
  | bool (b : Bool)
  | num (n : Int)
  | str (s : String)
  | list (xs : List JVal)
  | dict (d : List (String × JVal))

/-- Python truthiness of an optional value (`None`/missing is falsy, as are
`False`, `0`, `""`, `[]` and `{}`). -/
def truthyJ : Option JVal → Bool
  | none => false
  | some .null => false
  | some (.bool b) => b
  | some (.num n) => !(n == 0)
  | some (.str s) => !(s == "")
  | some (.list xs) => !xs.isEmpty
  | some (.dict d) => !d.isEmpty

/-- Python `isinstance(v, dict) ? v : {}`: the dict payload of a value, `{}` otherwise.
Used for the coordinators' defensive shape guard `if not isinstance(data, dict): data = {}`. -/
def asDict : JVal → List (String × JVal)
  | .dict d => d
  | _ => []

/-- Modelled from the spec: the `flatten` helper of `helpers.py` (a file that is not among
the sources) converts a nested response dictionary into a single-level mapping whose keys
are the nested key paths composed with underscores.  No claim inspects its output. -/
def flatten : List (String × JVal) → List (String × JVal)
  | [] => []
  | (k, .dict sub) :: rest =>
    (flatten sub).map (fun kv => (k ++ "_" ++ kv.1, kv.2)) ++ flatten rest
  | (k, v) :: rest => (k, v) :: flatten rest
termination_by l => sizeOf l
decreasing_by all_goals (simp_wf; try omega)

/- ### Error taxonomy of the tesla_fleet_api client, as caught by coordinator.py -/

/-- The exceptions distinguished by the coordinators' `except` chains.  All constructors
other than `typeError` are subclasses of `TeslaFleetError` in the client library;
`teslaFleetError` stands for any other subclass. -/
inductive ApiError : Type
  | vehicleOffline
  | internalServerError
  | serviceUnavailable
  | gatewayTimeout
  | deviceUnexpectedResponse
  | invalidToken
  | subscriptionRequired
  | forbidden
  | loginRequired
  | teslaFleetError (msg : String)
  | typeError
deriving DecidableEq

/-- The transient 5xx-class group caught together by every coordinator:
`(InternalServerError, ServiceUnavailable, GatewayTimeout, DeviceUnexpectedResponse)`. -/
def is5xx : ApiError → Bool
  | .internalServerError | .serviceUnavailable | .gatewayTimeout
  | .deviceUnexpectedResponse => true
  | _ => false

/-- The `e.message` attribute used when surfacing `UpdateFailed(e.message)`.  The exact
strings live in the client library and are irrelevant to the claims. -/
def ApiError.message : ApiError → String
  | .vehicleOffline => "vehicle offline"
  | .internalServerError => "internal server error"
  | .serviceUnavailable => "service unavailable"
  | .gatewayTimeout => "gateway timeout"
  | .deviceUnexpectedResponse => "device unexpected response"
  | .invalidToken => "invalid token"
  | .subscriptionRequired => "subscription required"
  | .forbidden => "forbidden"
  | .loginRequired => "login required"
  | .teslaFleetError m => m
  | .typeError => "type error"

/-- The result of awaiting one vendor API call. -/
inductive Fetch (α : Type) : Type
  | ok (v : α)
  | err (e : ApiError)

/-- How one `_async_update_data` run ends: returning data (a successful update for the
framework), raising `UpdateFailed`, or raising `ConfigEntryAuthFailed`. -/
inductive TickOutcome : Type
  | ok (d : List (String × JVal))
  | updateFailed (msg : String)
  | configEntryAuthFailed

/-- Whether an outcome is a hard `UpdateFailed`. -/
def isUpdateFailedOutcome : TickOutcome → Bool
  | .updateFailed _ => true
  | _ => false

/- ### Vehicle data coordinator (coordinator.py, TeslemetryVehicleDataCoordinator) -/

/-- Modelled from the spec: `TeslemetryState.ONLINE` of the missing `const.py`; the spec
gives the state alphabet online/offline/asleep. -/
def ONLINE : String := "online"

/-- Modelled from the spec: `TeslemetryState.OFFLINE` of the missing `const.py`. -/
def OFFLINE : String := "offline"

/-- `VEHICLE_INTERVAL = timedelta(seconds=30)`, in seconds. -/
def VEHICLE_INTERVAL : Int := 30

/-- `VEHICLE_WAIT = timedelta(minutes=15)`, in seconds. -/
def VEHICLE_WAIT : Int := 15 * 60

/-- Python `self.data["state"] == TeslemetryState.ONLINE` (the source only ever compares
against ONLINE). -/
def isOnline (d : List (String × JVal)) : Bool :=
  match dget d "state" with
  | some (.str s) => s == ONLINE
  | _ => false

/-- Python `data["charge_state"].get("charging_state") == "Charging"`. -/
def isCharging (d : List (String × JVal)) : Bool :=
  match dget (asDict ((dget d "charge_state").getD .null)) "charging_state" with
  | some (.str s) => s == "Charging"
  | _ => false

/-- The activity test of the pre-2021 branch:
`charging or is_user_present or sentry_mode` (an OR of three truthiness tests on the
raw response). -/
def vehicleIsActive (raw : List (String × JVal)) : Bool :=
  isCharging raw
    || truthyJ (dget (asDict ((dget raw "vehicle_state").getD .null)) "is_user_present")
    || truthyJ (dget (asDict ((dget raw "vehicle_state").getD .null)) "sentry_mode")

/-- The mutable coordinator state of `TeslemetryVehicleDataCoordinator`: the cached
snapshot, the failure counter, the pre-2021 adaptive-poll timestamp, the current update
interval (seconds) and the `updated_once` / `pre2021` flags. -/
structure VehState : Type where
  data : List (String × JVal)
  failures : Nat
  last_active : Int
  update_interval : Int
  updated_once : Bool
  pre2021 : Bool

/-- The vehicle coordinator's `except` chain, in source order: `VehicleOffline`,
the transient 5xx group, `InvalidToken`, `(SubscriptionRequired, Forbidden,
LoginRequired)`, `TeslaFleetError`, `TypeError`. -/
def vehicleHandleError (st : VehState) (e : ApiError) : VehState × TickOutcome :=
  match e with
  | .vehicleOffline =>
    let st := { st with data := dset st.data "state" (.str OFFLINE) }
    (st, .ok st.data)
  | .internalServerError | .serviceUnavailable | .gatewayTimeout
  | .deviceUnexpectedResponse =>
    let st := { st with failures := st.failures + 1 }
    if st.failures > 2 then (st, .updateFailed "Multiple 5xx failures")
    else (st, .ok st.data)
  | .invalidToken => (st, .configEntryAuthFailed)
  | .subscriptionRequired | .forbidden | .loginRequired =>
    (st, .updateFailed e.message)
  | .teslaFleetError m => (st, .updateFailed m)
  | .typeError => (st, .updateFailed "Invalid response from Teslemetry")

/-- The pre-2021 adaptive-cadence block run after a successful full-data fetch:
active vehicles reset `last_active` and keep the normal interval; otherwise an elapsed
time above 20 minutes resets `last_active`, and one above 15 minutes switches to the
extended `VEHICLE_WAIT` interval. -/
def vehicleActivityAdjust (st : VehState) (now : Int)
    (raw : List (String × JVal)) : VehState :=
  if st.pre2021 then
    if vehicleIsActive raw then
      { st with last_active := now, update_interval := VEHICLE_INTERVAL }
    else
      let elapsed := now - st.last_active
      if elapsed > 20 * 60 then { st with last_active := now }
      else if elapsed > 15 * 60 then { st with update_interval := VEHICLE_WAIT }
      else st
  else st

/-- The tail of the vehicle tick once the vehicle is known online: fetch the full
endpoint set; on success reset the failure counter, run the adaptive-cadence block, mark
`updated_once` and return the flattened response; on error run the `except` chain. -/
def vehicleFetchPhase (st : VehState) (now : Int)
    (fd : Fetch (List (String × JVal))) : VehState × TickOutcome :=
  match fd with
  | .err e => vehicleHandleError st e
  | .ok raw =>
    let st := { st with failures := 0 }
    let st := vehicleActivityAdjust st now raw
    ({ st with updated_once := true }, .ok (flatten raw))

/-- `TeslemetryVehicleDataCoordinator._async_update_data`.  `summary` is the result of
`self.api.vehicle()` (consumed only when the cached state is not online) and `fd` the
result of `self.api.vehicle_data(endpoints=ENDPOINTS)` (consumed only when the vehicle is
online); `now` stands for `datetime.now()` during this tick. -/
def TeslemetryVehicleDataCoordinator.async_update_data (st : VehState) (now : Int)
    (summary : Fetch String) (fd : Fetch (List (String × JVal))) :
    VehState × TickOutcome :=
  let st := { st with update_interval := VEHICLE_INTERVAL }
  if isOnline st.data then vehicleFetchPhase st now fd
  else
    match summary with
    | .err e => vehicleHandleError st e
    | .ok s =>
      let st := { st with data := dset st.data "state" (.str s) }
      if isOnline st.data then vehicleFetchPhase st now fd
      else (st, .ok st.data)

/- ### Energy site coordinators (coordinator.py, the three simpler variants) -/

/-- The mutable state of an energy coordinator: cached snapshot (`self.data`) and the
failure counter. -/
structure EnergyState : Type where
  data : List (String × JVal)
  failures : Nat

/-- The `except` chain shared verbatim by the three energy coordinators, in source
order: `InvalidToken`, the transient 5xx group, `TeslaFleetError`, `TypeError`.  Unlike
the vehicle coordinator there is no `VehicleOffline` clause, so that error (a
`TeslaFleetError` subclass) falls through to `UpdateFailed(e.message)`. -/
def energyHandleError (failures : Nat) (cached : List (String × JVal))
    (e : ApiError) : Nat × TickOutcome :=
  match e with
  | .invalidToken => (failures, .configEntryAuthFailed)
  | .internalServerError | .serviceUnavailable | .gatewayTimeout
  | .deviceUnexpectedResponse =>
    if failures + 1 > 2 then (failures + 1, .updateFailed "Multiple 5xx failures")
    else (failures + 1, .ok cached)
  | .typeError => (failures, .updateFailed "Invalid response from Teslemetry")
  | e => (failures, .updateFailed e.message)

/-- Python `wc["din"]` when it is a string: the device identifier of one wall-connector
record. -/
def recordDin (v : JVal) : Option String :=
  match v with
  | .dict d =>
    match dget d "din" with
    | some (.str s) => some s
    | _ => none
  | _ => none

/-- The dict comprehension `{wc["din"]: wc for wc in data["wall_connectors"]}`.
A record on which `wc["din"]` would raise (no `din` string) is skipped here; every
claim about this code premises that each record has one. -/
def wallConnectorsDict (xs : List JVal) : List (String × JVal) :=
  xs.foldl
    (fun acc wc =>
      match recordDin wc with
      | some k => dset acc k wc
      | none => acc)
    []

/-- `TeslemetryEnergySiteLiveCoordinator._async_update_data`: fetch `live_status`; on
error run the energy `except` chain; on success guard the response shape, then replace
the `wall_connectors` sequence by a mapping keyed by `din` (empty when the field is
absent or not a sequence). -/
def TeslemetryEnergySiteLiveCoordinator.async_update_data (st : EnergyState)
    (fetch : Fetch JVal) : EnergyState × TickOutcome :=
  match fetch with
  | .err e =>
    let fo := energyHandleError st.failures st.data e
    ({ st with failures := fo.1 }, fo.2)
  | .ok v =>
    let d := asDict v
    let d :=
      match dget d "wall_connectors" with
      | some (.list xs) => dset d "wall_connectors" (.dict (wallConnectorsDict xs))
      | _ => dset d "wall_connectors" (.dict [])
    (st, .ok d)

/-- One live-coordinator cycle as driven by the framework: on a successful update the
`DataUpdateCoordinator` stores the returned mapping as the new `self.data`. -/
def energyLiveStep (st : EnergyState) (fetch : Fetch JVal) :
    EnergyState × TickOutcome :=
  match TeslemetryEnergySiteLiveCoordinator.async_update_data st fetch with
  | (st', .ok d) => ({ st' with data := d }, .ok d)
  | r => r

/-- `TeslemetryEnergySiteInfoCoordinator._async_update_data`: fetch `site_info`, guard
the shape, return the flattened response. -/
def TeslemetryEnergySiteInfoCoordinator.async_update_data (st : EnergyState)
    (fetch : Fetch JVal) : EnergyState × TickOutcome :=
  match fetch with
  | .err e =>
    let fo := energyHandleError st.failures st.data e
    ({ st with failures := fo.1 }, fo.2)
  | .ok v => (st, .ok (flatten (asDict v)))

/-- Python `period.get(key, 0)` followed by the `+=` on an integer bucket: the numeric
value of an optional field, `0` when the field is missing.  (A present non-numeric value
would raise an uncaught `TypeError` in the source; no claim reaches that case.) -/
def numOf : Option JVal → Int
  | some (.num n) => n
  | _ => 0

/-- The zero-initialised accumulator `{key: 0 for key in ENERGY_HISTORY_FIELDS}`. -/
def initZeros (fields : List String) : List (String × JVal) :=
  fields.foldl (fun d k => dset d k (.num 0)) []

/-- The inner loop `for key in ENERGY_HISTORY_FIELDS: output[key] += period.get(key, 0)`
for one time-bucket record `pd`. -/
def addPeriod (fields : List String) (pd : List (String × JVal))
    (out : List (String × JVal)) : List (String × JVal) :=
  fields.foldl
    (fun o k => dset o k (.num (numOf (dget o k) + numOf (dget pd k)))) out

/-- The aggregation of `TeslemetryEnergyHistoryCoordinator._async_update_data`: start
from all-zero buckets and add every time-bucket record.  `fields` stands for
`ENERGY_HISTORY_FIELDS` (a fixed list of distinct field names in the missing
`const.py`); the claims hold for every duplicate-free list. -/
def energyHistoryAggregate (fields : List String) (series : List JVal) :
    List (String × JVal) :=
  series.foldl (fun out p => addPeriod fields (asDict p) out) (initZeros fields)

/-- `TeslemetryEnergyHistoryCoordinator._async_update_data`: fetch `energy_history`,
guard the shape, then sum `data.get("time_series", [])` over the tracked fields.
(A present non-sequence `time_series` would raise an uncaught `TypeError` in the source;
no claim reaches that case.) -/
def TeslemetryEnergyHistoryCoordinator.async_update_data (fields : List String)
    (st : EnergyState) (fetch : Fetch JVal) : EnergyState × TickOutcome :=
  match fetch with
  | .err e =>
    let fo := energyHandleError st.failures st.data e
    ({ st with failures := fo.1 }, fo.2)
  | .ok v =>
    let d := asDict v
    let series :=
      match dget d "time_series" with
      | some (.list xs) => xs
      | _ => []
    (st, .ok (energyHistoryAggregate fields series))

/- ### Climate entities (climate.py) -/

/-- The platform HVAC modes this integration uses. -/
inductive HVACMode : Type
  | off
  | heat_cool
  | cool
  | fan_only
deriving DecidableEq

/-- `CabinOverheatProtectionTemp` levels of the vendor client. -/
inductive CopTemp : Type
  | low
  | medium
  | high
deriving DecidableEq

/-- The vendor API commands issued by the modelled entity methods. -/
inductive VendorCmd : Type
  | set_temps (driver_temp passenger_temp : Rat)
  | auto_conditioning_start
  | auto_conditioning_stop
  | set_cop_temp (level : CopTemp)
  | set_cabin_overheat_protection (on_flag fan_only : Bool)
deriving DecidableEq

/-- How a modelled entity command method ends.  `keyError` is a Python `KeyError` from
`kwargs[...]`, `validationError` a `ServiceValidationError`, and `scopeError` the
authorization failure of `raise_for_scope` (modelled from the spec: the base-entity file
is not among the sources; the spec says command methods first verify the required scope
and fail with an authorization error otherwise). -/
inductive CallOutcome : Type
  | ok
  | keyError
  | validationError
  | scopeError
deriving DecidableEq

/-- The observable effect of one entity command method: the vendor commands issued (in
order), the outcome, and the optimistic `_attr_target_temperature` write if any. -/
structure CallResult : Type where
  commands : List VendorCmd
  outcome : CallOutcome
  target : Option Rat
deriving DecidableEq

/-- `TeslemetryClimateEntity.async_set_hvac_mode` → `async_turn_off` / `async_turn_on`:
the vendor command issued for a requested mode. -/
def climateSetHvacModeCmds (mode : HVACMode) : List VendorCmd :=
  if mode = .off then [.auto_conditioning_stop] else [.auto_conditioning_start]

/-- The tail of `TeslemetryClimateEntity.async_set_temperature` from
`if mode := kwargs[ATTR_HVAC_MODE]:` on.  `cmds`/`tgt` are the commands issued and the
optimistic write of the temperature block; `mode` is `none` when the HVAC-mode key is
absent from `kwargs` (direct indexing then raises `KeyError`), `some none` when it is
present but `None`. -/
def climateAfterTempMode (hasScope : Bool) (cmds : List VendorCmd) (tgt : Option Rat)
    (mode : Option (Option HVACMode)) : CallResult :=
  match mode with
  | none => { commands := cmds, outcome := .keyError, target := tgt }
  | some none => { commands := cmds, outcome := .ok, target := tgt }
  | some (some m) =>
    if hasScope then
      { commands := cmds ++ climateSetHvacModeCmds m, outcome := .ok, target := tgt }
    else { commands := cmds, outcome := .scopeError, target := tgt }

/-- `TeslemetryClimateEntity.async_set_temperature`.  `temp`/`mode` model the
`ATTR_TEMPERATURE` / `ATTR_HVAC_MODE` slots of `kwargs`: `none` means the key is absent
(direct indexing raises `KeyError`), `some none` present-but-`None`, `some (some v)`
present with value `v`.  The walrus `if temp := kwargs[ATTR_TEMPERATURE]:` runs the
temperature block only for a truthy (non-zero) value, in which case `set_temps` applies
the value to both zones and the target attribute is stored optimistically. -/
def TeslemetryClimateEntity.async_set_temperature (hasScope : Bool)
    (temp : Option (Option Rat)) (mode : Option (Option HVACMode)) : CallResult :=
  match temp with
  | none => { commands := [], outcome := .keyError, target := none }
  | some none => climateAfterTempMode hasScope [] none mode
  | some (some q) =>
    if q = 0 then climateAfterTempMode hasScope [] none mode
    else if hasScope then
      climateAfterTempMode hasScope [.set_temps q q] (some q) mode
    else { commands := [], outcome := .scopeError, target := none }

/-- `TeslemetryCabinOverheatProtectionEntity.async_set_hvac_mode`: the on/fan-only flag
combination sent for each requested mode (no command for a mode outside the three). -/
def cabinSetHvacModeCmds (mode : HVACMode) : List VendorCmd :=
  match mode with
  | .off => [.set_cabin_overheat_protection false false]
  | .cool => [.set_cabin_overheat_protection true false]
  | .fan_only => [.set_cabin_overheat_protection true true]
  | .heat_cool => []

/-- The tail of `TeslemetryCabinOverheatProtectionEntity.async_set_temperature` from
`if mode := kwargs[ATTR_HVAC_MODE]:` on. -/
def cabinAfterTempMode (hasScope : Bool) (cmds : List VendorCmd) (tgt : Option Rat)
    (mode : Option (Option HVACMode)) : CallResult :=
  match mode with
  | none => { commands := cmds, outcome := .keyError, target := tgt }
  | some none => { commands := cmds, outcome := .ok, target := tgt }
  | some (some m) =>
    if hasScope then
      { commands := cmds ++ cabinSetHvacModeCmds m, outcome := .ok, target := tgt }
    else { commands := cmds, outcome := .scopeError, target := tgt }

/-- `TeslemetryCabinOverheatProtectionEntity.async_set_temperature`.  A truthy
temperature is first discretised (30→LOW, 35→MEDIUM, 40→HIGH, anything else raises
`ServiceValidationError` before any scope check or command); only then are the scope
check, the `set_cop_temp` command and the optimistic target write performed. -/
def TeslemetryCabinOverheatProtectionEntity.async_set_temperature (hasScope : Bool)
    (temp : Option (Option Rat)) (mode : Option (Option HVACMode)) : CallResult :=
  match temp with
  | none => { commands := [], outcome := .keyError, target := none }
  | some none => cabinAfterTempMode hasScope [] none mode
  | some (some q) =>
    if q = 0 then cabinAfterTempMode hasScope [] none mode
    else
      let level : Option CopTemp :=
        if q = 30 then some .low
        else if q = 35 then some .medium
        else if q = 40 then some .high
        else none
      match level with
      | none => { commands := [], outcome := .validationError, target := none }
      | some l =>
        if hasScope then cabinAfterTempMode hasScope [.set_cop_temp l] (some q) mode
        else { commands := [], outcome := .scopeError, target := none }

/-- First statement pair of `TeslemetryClimateEntity._async_update_attrs`:
`if value is None: self._attr_hvac_mode = None`. -/
def climateHvacStep1 (prev : Option HVACMode) (value : Option JVal) :
    Option HVACMode :=
  match value with
  | none => none
  | some _ => prev

/-- Second statement pair of `TeslemetryClimateEntity._async_update_attrs`:
`if value: ... HEAT_COOL else: ... OFF` — an unconditional overwrite of the previous
assignment, whose result (`_hvac`) it discards. -/
def climateHvacStep2 (_hvac : Option HVACMode) (value : Option JVal) :
    Option HVACMode :=
  if truthyJ value then some .heat_cool else some .off

/-- The `_attr_hvac_mode` computation of `TeslemetryClimateEntity._async_update_attrs`,
as the source sequences it: `value` is `self.get("climate_state_is_climate_on")` and
`prev` the attribute's previous value. -/
def TeslemetryClimateEntity.update_attrs_hvac_mode (prev : Option HVACMode)
    (value : Option JVal) : Option HVACMode :=
  climateHvacStep2 (climateHvacStep1 prev value) value

/- ### Update entity (update.py) -/

/-- Python `s.split(" ")[0]`: the part of `s` before its first space character. -/
def pySplitSpaceFirst (s : String) : String :=
  (s.toList.takeWhile (fun c => c ≠ ' ')).asString

/-- Python `str.isspace` characters relevant to version strings (the whitespace the
spec's words refer to). -/
def isPyWhitespace (c : Char) : Bool :=
  c = ' ' || c = '\t' || c = '\n' || c = '\r' || c = '\x0b' || c = '\x0c'

/-- Follows the spec's words, for comparison with the source: the first
whitespace-delimited token of a string, read as the characters before the first
whitespace character. -/
def specFirstWhitespaceToken (s : String) : String :=
  (s.toList.takeWhile (fun c => !isPyWhitespace c)).asString

/-- The `TeslemetryUpdateStatus` values compared against (the concrete strings live in
the missing `const.py`; `other` stands for every remaining status value). -/
inductive UpdateStatus : Type
  | available
  | scheduled
  | installing
  | downloading
  | wifi_wait
  | other (s : String)
deriving DecidableEq

/-- Membership in the five update-pending statuses gating the latest-version field. -/
def updatePending : UpdateStatus → Bool
  | .available | .scheduled | .installing | .downloading | .wifi_wait => true
  | .other _ => false

/-- The version attributes derived by `TeslemetryUpdateEntity._async_update_attrs`. -/
structure UpdateAttrs : Type where
  installed_version : Option String
  latest_version : Option String
deriving DecidableEq

/-- The version part of `TeslemetryUpdateEntity._async_update_attrs`: `car_version` is
`self.get("vehicle_state_car_version")`, `status` is `self._value` (the software-update
status), and `suv` the value of
`self.coordinator.data["vehicle_state_software_update_version"]` (direct indexing; the
claims premise the key present). -/
def TeslemetryUpdateEntity.update_attrs_versions (car_version : Option String)
    (status : UpdateStatus) (suv : String) : UpdateAttrs :=
  let installed :=
    match car_version with
    | none => none
    | some v => some (pySplitSpaceFirst v)
  let latest := if updatePending status then some suv else installed
  { installed_version := installed, latest_version := latest }

/- ### Vehicle context dataclass (models.py, TeslemetryVehicleData) -/

/-- Identity of one `asyncio.Lock()` allocation.  In `models.py` the line
`wakelock = asyncio.Lock()` inside the `TeslemetryVehicleData` dataclass body carries no
type annotation, so under Python dataclass semantics it is not a field: it is a class
attribute, and the single `asyncio.Lock()` call is evaluated once at class-definition
time.  This constant is that one allocation. -/
def classWakelockId : Nat := 0

/-- The per-instance fields of the `TeslemetryVehicleData` dataclass (external handles
reduced to identities).  `wakelock` is deliberately absent: it is a class attribute, not
a field. -/
structure TeslemetryVehicleData : Type where
  api : Nat
  coordinator : Nat
  stream : Nat
  vin : String
  device : Nat
  last_alert : String
  last_error : String
deriving DecidableEq

/-- Attribute access `vehicle.wakelock`: the instance has no such field, so Python
resolves it to the shared class attribute. -/
def TeslemetryVehicleData.wakelock (_ : TeslemetryVehicleData) : Nat :=
  classWakelockId

/- ### Small observers used to state the claims -/

/-- Whether a value is a Python dict (`isinstance(v, dict)`). -/
def isDictJ : JVal → Bool
  | .dict _ => true
  | _ => false

/-- Whether the `wall_connectors` field of a response dict is a sequence
(`isinstance(data.get("wall_connectors"), list)`). -/
def wcFieldIsList (d : List (String × JVal)) : Bool :=
  match dget d "wall_connectors" with
  | some (.list _) => true
  | _ => false

/-- The coordinator state after one vehicle tick (projection of
`TeslemetryVehicleDataCoordinator.async_update_data`). -/
def vehicleTickState (st : VehState) (now : Int) (summary : Fetch String)
    (fd : Fetch (List (String × JVal))) : VehState :=
  (TeslemetryVehicleDataCoordinator.async_update_data st now summary fd).1

/- ### Helper lemmas about the dictionary model -/

theorem dget_dset_self {α : Type} (d : List (String × α)) (k : String) (v : α) :
    dget (dset d k v) k = some v := by
  induction d with
  | nil => simp [dget, dset]
  | cons hd tl ih =>
    obtain ⟨k', w⟩ := hd
    by_cases h : k' = k <;> simp [dget, dset, h, ih]

theorem dget_dset_ne {α : Type} (d : List (String × α)) (k k' : String) (v : α)
    (h : k' ≠ k) : dget (dset d k v) k' = dget d k' := by
  have hkk : ¬ k = k' := fun hh => h hh.symm
  induction d with
  | nil => simp [dget, dset, hkk]
  | cons hd tl ih =>
    obtain ⟨k₀, w⟩ := hd
    by_cases h0 : k₀ = k
    · subst h0
      simp [dget, dset, hkk]
    · by_cases h1 : k₀ = k' <;> simp [dget, dset, h0, h1, h, ih]

theorem dget_not_mem {α : Type} (d : List (String × α)) (k : String)
    (h : k ∉ dkeys d) : dget d k = none := by
  induction d with
  | nil => simp [dget]
  | cons hd tl ih =>
    obtain ⟨k', w⟩ := hd
    simp only [dkeys, List.map_cons, List.mem_cons] at h
    push_neg at h
    have hne : ¬ k' = k := fun hh => h.1 hh.symm
    simp [dget, hne, ih (by simpa [dkeys] using h.2)]

theorem dset_not_mem {α : Type} (d : List (String × α)) (k : String) (v : α)
    (h : k ∉ dkeys d) : dset d k v = d ++ [(k, v)] := by
  induction d with
  | nil => simp [dset]
  | cons hd tl ih =>
    obtain ⟨k', w⟩ := hd
    simp only [dkeys, List.map_cons, List.mem_cons] at h
    push_neg at h
    have hne : ¬ k' = k := fun hh => h.1 hh.symm
    simp [dset, hne, ih (by simpa [dkeys] using h.2)]

theorem dkeys_dset_mem {α : Type} (d : List (String × α)) (k : String) (v : α)
    (h : k ∈ dkeys d) : dkeys (dset d k v) = dkeys d := by
  induction d with
  | nil => simp [dkeys] at h
  | cons hd tl ih =>
    obtain ⟨k', w⟩ := hd
    by_cases h0 : k' = k
    · simp [dset, dkeys, h0]
    · have hk : k ∈ dkeys tl := by
        simp only [dkeys, List.map_cons, List.mem_cons] at h
        rcases h with h | h
        · exact absurd h.symm h0
        · exact h
      simp only [dset, if_neg h0]
      show dkeys ((k', w) :: dset tl k v) = dkeys ((k', w) :: tl)
      simp only [dkeys, List.map_cons]
      exact congrArg _ (ih hk)

theorem dget_append_not_mem {α : Type} (d d' : List (String × α)) (k : String)
    (h : k ∉ dkeys d) : dget (d ++ d') k = dget d' k := by
  induction d with
  | nil => simp
  | cons hd tl ih =>
    obtain ⟨k', w⟩ := hd
    simp only [dkeys, List.map_cons, List.mem_cons] at h
    push_neg at h
    have hne : ¬ k' = k := fun hh => h.1 hh.symm
    simp [dget, hne, ih (by simpa [dkeys] using h.2)]

/- ### Helper lemmas for the history aggregation -/

theorem initZeros_go (fields : List String) (acc : List (String × JVal))
    (hnd : fields.Nodup) (hfresh : ∀ k ∈ fields, k ∉ dkeys acc) :
    fields.foldl (fun d k => dset d k (.num 0)) acc
      = acc ++ fields.map (fun k => (k, JVal.num 0)) := by
  induction fields generalizing acc with
  | nil => simp
  | cons f fs ih =>
    simp only [List.foldl_cons, List.map_cons]
    rw [dset_not_mem acc f _ (hfresh f (by simp))]
    have hfresh' : ∀ k ∈ fs, k ∉ dkeys (acc ++ [(f, JVal.num 0)]) := by
      intro k hk
      have hkf : k ≠ f := fun hh => (List.nodup_cons.mp hnd).1 (hh ▸ hk)
      have hka : k ∉ dkeys acc := hfresh k (by simp [hk])
      simp only [dkeys, List.map_append, List.mem_append]
      push_neg
      exact ⟨by simpa [dkeys] using hka, by simp [hkf]⟩
    rw [ih (acc ++ [(f, JVal.num 0)]) (List.Nodup.of_cons hnd) hfresh']
    simp

theorem initZeros_eq (fields : List String) (hnd : fields.Nodup) :
    initZeros fields = fields.map (fun k => (k, JVal.num 0)) := by
  have := initZeros_go fields [] hnd (by simp [dkeys])
  simpa [initZeros] using this

theorem dkeys_map_const (fields : List String) :
    dkeys (fields.map (fun k => (k, JVal.num 0))) = fields := by
  induction fields with
  | nil => rfl
  | cons f fs ih =>
    simp only [dkeys, List.map_cons] at ih ⊢
    exact congrArg _ ih

theorem dget_map_const (fields : List String) (k : String) (h : k ∈ fields) :
    dget (fields.map (fun k => (k, JVal.num 0))) k = some (JVal.num 0) := by
  induction fields with
  | nil => simp at h
  | cons f fs ih =>
    by_cases hf : f = k
    · simp [dget, hf]
    · simp only [List.mem_cons] at h
      rcases h with h | h
      · exact absurd h.symm hf
      · simp [dget, hf, ih h]

theorem addPeriod_dget (fields : List String) (pd out : List (String × JVal))
    (hnd : fields.Nodup) (k : String) :
    dget (addPeriod fields pd out) k =
      if k ∈ fields then some (.num (numOf (dget out k) + numOf (dget pd k)))
      else dget out k := by
  induction fields generalizing out with
  | nil => simp [addPeriod]
  | cons f fs ih =>
    have hnd' := List.Nodup.of_cons hnd
    have hf_not : f ∉ fs := (List.nodup_cons.mp hnd).1
    simp only [addPeriod, List.foldl_cons] at *
    rw [ih _ hnd']
    by_cases hk : k ∈ fs
    · have hkf : k ≠ f := fun hh => hf_not (hh ▸ hk)
      simp [hk, hkf, dget_dset_ne _ _ _ _ hkf]
    · by_cases hkf : k = f
      · subst hkf
        simp [hk, dget_dset_self]
      · simp [hk, hkf, dget_dset_ne _ _ _ _ hkf]

theorem addPeriod_dkeys (fields : List String) (pd out : List (String × JVal))
    (hsub : ∀ k ∈ fields, k ∈ dkeys out) :
    dkeys (addPeriod fields pd out) = dkeys out := by
  induction fields generalizing out with
  | nil => simp [addPeriod]
  | cons f fs ih =>
    simp only [addPeriod, List.foldl_cons] at *
    rw [ih]
    · exact dkeys_dset_mem _ _ _ (hsub f (by simp))
    · intro k hk
      rw [dkeys_dset_mem _ _ _ (hsub f (by simp))]
      exact hsub k (by simp [hk])

/-- Per-field total over a list of time-bucket records. -/
def seriesNum (series : List JVal) (k : String) : Int :=
  (series.map (fun p => numOf (dget (asDict p) k))).sum

theorem aggLoop_dget (fields : List String) (series : List JVal)
    (out : List (String × JVal)) (hnd : fields.Nodup) (k : String) (c : Int)
    (hk : k ∈ fields) (hc : dget out k = some (.num c)) :
    dget (series.foldl (fun o p => addPeriod fields (asDict p) o) out) k
      = some (.num (c + seriesNum series k)) := by
  induction series generalizing out c with
  | nil => simp [seriesNum, hc]
  | cons p ps ih =>
    simp only [List.foldl_cons]
    have hstep : dget (addPeriod fields (asDict p) out) k
        = some (.num (c + numOf (dget (asDict p) k))) := by
      rw [addPeriod_dget _ _ _ hnd]
      simp [hk, hc, numOf]
    rw [ih _ _ hstep]
    have hser : seriesNum (p :: ps) k
        = numOf (dget (asDict p) k) + seriesNum ps k := by
      simp [seriesNum]
    rw [hser]
    congr 2
    ring

theorem aggLoop_dkeys (fields : List String) (series : List JVal)
    (out : List (String × JVal)) (hsub : ∀ k ∈ fields, k ∈ dkeys out) :
    dkeys (series.foldl (fun o p => addPeriod fields (asDict p) o) out)
      = dkeys out := by
  induction series generalizing out with
  | nil => rfl
  | cons p ps ih =>
    simp only [List.foldl_cons]
    rw [ih]
    · exact addPeriod_dkeys _ _ _ hsub
    · intro k hk
      rw [addPeriod_dkeys _ _ _ hsub]
      exact hsub k hk

/- ### Helper lemmas for the wall-connector normalization -/

theorem wallConnectorsDict_go (xs : List JVal) (dins : List String)
    (acc : List (String × JVal)) (h : xs.map recordDin = dins.map some)
    (hnd : dins.Nodup) (hfresh : ∀ k ∈ dins, k ∉ dkeys acc) :
    xs.foldl
        (fun a wc => match recordDin wc with
          | some k => dset a k wc
          | none => a) acc
      = acc ++ dins.zip xs := by
  induction xs generalizing dins acc with
  | nil =>
    cases dins with
    | nil => simp
    | cons d ds => simp at h
  | cons x xs ih =>
    cases dins with
    | nil => simp at h
    | cons d ds =>
      simp only [List.map_cons, List.cons.injEq] at h
      obtain ⟨hx, hxs⟩ := h
      simp only [List.foldl_cons, hx, List.zip_cons_cons]
      rw [dset_not_mem acc d x (hfresh d (by simp))]
      rw [ih ds (acc ++ [(d, x)]) hxs (List.Nodup.of_cons hnd)]
      · simp
      · intro k hk
        simp only [dkeys, List.map_append, List.mem_append]
        push_neg
        constructor
        · exact fun hmem => hfresh k (by simp [hk]) (by simpa [dkeys] using hmem)
        · intro hmem
          simp at hmem
          exact absurd (hmem ▸ hk) (List.nodup_cons.mp hnd).1

theorem wallConnectorsDict_eq (xs : List JVal) (dins : List String)
    (h : xs.map recordDin = dins.map some) (hnd : dins.Nodup) :
    wallConnectorsDict xs = dins.zip xs := by
  have := wallConnectorsDict_go xs dins [] h hnd (by simp [dkeys])
  simpa [wallConnectorsDict] using this

theorem dget_zip_nodup (dins : List String) (xs : List JVal) (hnd : dins.Nodup)
    (k : String) (x : JVal) (hmem : (k, x) ∈ dins.zip xs) :
    dget (dins.zip xs) k = some x := by
  induction dins generalizing xs with
  | nil => simp at hmem
  | cons d ds ih =>
    cases xs with
    | nil => simp at hmem
    | cons y ys =>
      rw [List.zip_cons_cons] at hmem ⊢
      rcases List.mem_cons.mp hmem with hmem | hmem
      · have hk : k = d := congrArg Prod.fst hmem
        have hx : x = y := congrArg Prod.snd hmem
        subst hk
        subst hx
        simp [dget]
      · have hkd : ¬ d = k := by
          intro hh
          subst hh
          exact (List.nodup_cons.mp hnd).1 (List.of_mem_zip hmem).1
        simp only [dget, if_neg hkd]
        exact ih ys (List.Nodup.of_cons hnd) hmem

/- ### Helper lemmas about the vehicle coordinator -/

theorem isOnline_dset (d : List (String × JVal)) (s : String) :
    isOnline (dset d "state" (.str s)) = (s == ONLINE) := by
  simp [isOnline, dget_dset_self]

theorem vehicleHandleError_interval (st : VehState) (e : ApiError) :
    (vehicleHandleError st e).1.update_interval = st.update_interval := by
  cases e <;> simp [vehicleHandleError] <;> split <;> rfl

theorem vehicleHandleError_last_active (st : VehState) (e : ApiError) :
    (vehicleHandleError st e).1.last_active = st.last_active := by
  cases e <;> simp [vehicleHandleError] <;> split <;> rfl

theorem vehicleHandleError_pre2021 (st : VehState) (e : ApiError) :
    (vehicleHandleError st e).1.pre2021 = st.pre2021 := by
  cases e <;> simp [vehicleHandleError] <;> split <;> rfl

theorem vehicleActivityAdjust_failures (st : VehState) (now : Int)
    (raw : List (String × JVal)) :
    (vehicleActivityAdjust st now raw).failures = st.failures := by
  cases hp : st.pre2021 <;> cases ha : vehicleIsActive raw <;>
    simp only [vehicleActivityAdjust, hp, ha, if_true, if_false, Bool.false_eq_true] <;>
    split_ifs <;> rfl

theorem vehicleActivityAdjust_data (st : VehState) (now : Int)
    (raw : List (String × JVal)) :
    (vehicleActivityAdjust st now raw).data = st.data := by
  cases hp : st.pre2021 <;> cases ha : vehicleIsActive raw <;>
    simp only [vehicleActivityAdjust, hp, ha, if_true, if_false, Bool.false_eq_true] <;>
    split_ifs <;> rfl

theorem vehicleActivityAdjust_wait_iff (st : VehState) (now : Int)
    (raw : List (String × JVal)) (hiv : st.update_interval = VEHICLE_INTERVAL) :
    ((vehicleActivityAdjust st now raw).update_interval = VEHICLE_WAIT ↔
      st.pre2021 = true ∧ vehicleIsActive raw = false ∧
        15 * 60 < now - st.last_active ∧ now - st.last_active ≤ 20 * 60) := by
  have h30 : VEHICLE_INTERVAL ≠ VEHICLE_WAIT := by decide
  unfold vehicleActivityAdjust
  cases hp : st.pre2021
  · simp [hiv, h30]
  · cases ha : vehicleIsActive raw
    · simp only [if_true, Bool.false_eq_true, if_false]
      split_ifs with h1 h2
      · simp only [hiv]
        constructor
        · intro hh
          exact absurd hh h30
        · rintro ⟨-, -, hlt, hle⟩
          omega
      · constructor
        · intro _
          exact ⟨trivial, trivial, by omega, by omega⟩
        · intro _
          rfl
      · simp only [hiv]
        constructor
        · intro hh
          exact absurd hh h30
        · rintro ⟨-, -, hlt, hle⟩
          omega
    · simp [hiv, h30]

/- ### Claim theorems -/

/-- Claim C8 (code_bug): the claim says every vehicle context owns its own wake lock,
distinct from every other vehicle's.  In the source, `wakelock = asyncio.Lock()` in the
`TeslemetryVehicleData` dataclass body has no type annotation, so it is a class
attribute: one single lock object, created at class-definition time and shared by every
vehicle context.  This theorem shows every two vehicle contexts — including two fully
distinct concrete ones — resolve `wakelock` to the same lock, so concurrent wake
attempts for different vehicles ARE serialized against each other, contradicting the
claim; the spec's per-vehicle intent makes the missing annotation a slip in the code. -/
theorem C8_shared_wakelock :
    (∀ v w : TeslemetryVehicleData, v.wakelock = w.wakelock) ∧
    TeslemetryVehicleData.wakelock
        { api := 0, coordinator := 0, stream := 0, vin := "5YJ3E1EA0AF000001",
          device := 0, last_alert := "", last_error := "" }
      = TeslemetryVehicleData.wakelock
        { api := 1, coordinator := 1, stream := 1, vin := "5YJ3E1EB1BF000002",
          device := 1, last_alert := "", last_error := "" } :=
  ⟨fun _ _ => rfl, rfl⟩

/-- Claim C9 (confirmed): in `TeslemetryClimateEntity._async_update_attrs`, when the
snapshot's climate-on value is absent (`None`), the resulting HVAC mode is OFF rather
than unknown — the `None` assignment is unconditionally overwritten by the falsy-value
branch — and the HVAC-mode attribute is never `None` after a refresh. -/
theorem C9_hvac_mode_never_none :
    (∀ prev, TeslemetryClimateEntity.update_attrs_hvac_mode prev none
        = some HVACMode.off) ∧
    (∀ prev value, TeslemetryClimateEntity.update_attrs_hvac_mode prev value ≠ none) := by
  constructor
  · intro prev
    rfl
  · intro prev value h
    simp only [TeslemetryClimateEntity.update_attrs_hvac_mode, climateHvacStep2] at h
    by_cases hb : truthyJ value <;> simp [hb] at h

/-- Claim C7 (counterexample): the claim says the displayed installed version is the
first whitespace-delimited token of the raw car-version string, but the source computes
`split(" ")[0]`, which splits on the space character only.  On the raw string
`"2024.8.9\tabcdef"` (tab-separated) the code keeps the whole string while the first
whitespace-delimited token is `"2024.8.9"`. -/
theorem C7_counterexample :
    (TeslemetryUpdateEntity.update_attrs_versions (some "2024.8.9\tabcdef")
        (.other "") "2024.20.1").installed_version = some "2024.8.9\tabcdef" ∧
    specFirstWhitespaceToken "2024.8.9\tabcdef" = "2024.8.9" ∧
    (TeslemetryUpdateEntity.update_attrs_versions (some "2024.8.9\tabcdef")
        (.other "") "2024.20.1").installed_version
      ≠ some (specFirstWhitespaceToken "2024.8.9\tabcdef") := by
  refine ⟨by decide, by decide, by decide⟩

/-- Claim C7 (amended): the displayed installed version is the part of the raw
car-version string before its first SPACE character (so `"2024.8.9 abcdef"` yields
`"2024.8.9"`), and the latest-available version equals the separate
software-update-version field exactly when the status is one of the five update-pending
values, otherwise the installed version. -/
theorem C7_amended (car_version : Option String) (status : UpdateStatus) (suv : String) :
    (TeslemetryUpdateEntity.update_attrs_versions car_version status suv).installed_version
      = car_version.map pySplitSpaceFirst ∧
    (TeslemetryUpdateEntity.update_attrs_versions (some "2024.8.9 abcdef") status
        suv).installed_version = some "2024.8.9" ∧
    (TeslemetryUpdateEntity.update_attrs_versions car_version status suv).latest_version
      = (if updatePending status then some suv else car_version.map pySplitSpaceFirst) ∧
    (updatePending status = true ↔
      status = .available ∨ status = .scheduled ∨ status = .installing ∨
        status = .downloading ∨ status = .wifi_wait) := by
  refine ⟨?_, ?_, ?_, ?_⟩
  · cases car_version <;> rfl
  · rfl
  · cases car_version <;> rfl
  · cases status <;> simp [updatePending]

/-- Claim C4 (counterexample): the claim says any numeric temperature other than
30/35/40 is rejected with a validation error.  A requested temperature of 0 is numeric
and not one of 30/35/40, yet the walrus test `if temp := kwargs[ATTR_TEMPERATURE]:` is
falsy for 0, so the whole block — validation included — is skipped: no validation
error, no vendor command. -/
theorem C4_counterexample :
    TeslemetryCabinOverheatProtectionEntity.async_set_temperature true
        (some (some 0)) (some none)
      = { commands := [], outcome := .ok, target := none } := by
  decide

/-- Claim C4 (amended): for a scoped call, temperatures 30, 35 and 40 issue
`set_cop_temp` with LOW, MEDIUM and HIGH respectively and then optimistically store the
value; any other NONZERO numeric temperature is rejected with a validation error without
invoking the vendor command (and before any scope check); a temperature of 0 is silently
skipped — no vendor command and no validation error. -/
theorem C4_amended (q : Rat) (hq0 : q ≠ 0) (h30 : q ≠ 30) (h35 : q ≠ 35)
    (h40 : q ≠ 40) :
    TeslemetryCabinOverheatProtectionEntity.async_set_temperature true
        (some (some 30)) (some none)
      = { commands := [.set_cop_temp .low], outcome := .ok, target := some 30 } ∧
    TeslemetryCabinOverheatProtectionEntity.async_set_temperature true
        (some (some 35)) (some none)
      = { commands := [.set_cop_temp .medium], outcome := .ok, target := some 35 } ∧
    TeslemetryCabinOverheatProtectionEntity.async_set_temperature true
        (some (some 40)) (some none)
      = { commands := [.set_cop_temp .high], outcome := .ok, target := some 40 } ∧
    (∀ hasScope mode,
      TeslemetryCabinOverheatProtectionEntity.async_set_temperature hasScope
          (some (some q)) mode
        = { commands := [], outcome := .validationError, target := none }) ∧
    (∀ hasScope,
      TeslemetryCabinOverheatProtectionEntity.async_set_temperature hasScope
          (some (some 0)) (some none)
        = { commands := [], outcome := .ok, target := none }) := by
  refine ⟨by decide, by decide, by decide, ?_, ?_⟩
  · intro hasScope mode
    simp [TeslemetryCabinOverheatProtectionEntity.async_set_temperature,
          hq0, h30, h35, h40]
  · intro hasScope
    cases hasScope <;> decide

/-- Witness for C4_amended at the concrete rejected temperature 33. -/
theorem C4_amended_witness :
    TeslemetryCabinOverheatProtectionEntity.async_set_temperature true
        (some (some 33)) none
      = { commands := [], outcome := .validationError, target := none } :=
  (C4_amended 33 (by decide) (by decide) (by decide) (by decide)).2.2.2.1 true none

/-- Claim C10 (counterexample): the claim says a call with the HVAC-mode key absent
raises a key-lookup error BEFORE issuing any vendor command.  With a present truthy
temperature (20) and the HVAC-mode key absent, the climate entity first issues
`set_temps` (and stores the optimistic target) and only then hits the `KeyError` on
`kwargs[ATTR_HVAC_MODE]`. -/
theorem C10_counterexample :
    TeslemetryClimateEntity.async_set_temperature true (some (some 20)) none
        = { commands := [.set_temps 20 20], outcome := .keyError, target := some 20 } ∧
    (TeslemetryClimateEntity.async_set_temperature true (some (some 20)) none).commands
      ≠ [] := by
  refine ⟨by decide, by decide⟩

/-- Claim C10 (amended): a call with the temperature key or the HVAC-mode key absent
always raises a key-lookup error; the error precedes every vendor command EXCEPT when
the temperature key is present with a truthy accepted value and the HVAC-mode key is
absent, in which case the temperature command (`set_temps`, or `set_cop_temp` for the
cabin-overheat-protection entity) is issued before the key-lookup error. -/
theorem C10_amended (q : Rat) (hq0 : q ≠ 0) :
    (∀ hasScope mode, TeslemetryClimateEntity.async_set_temperature hasScope none mode
        = { commands := [], outcome := .keyError, target := none }) ∧
    (∀ hasScope mode,
      TeslemetryCabinOverheatProtectionEntity.async_set_temperature hasScope none mode
        = { commands := [], outcome := .keyError, target := none }) ∧
    (∀ hasScope, TeslemetryClimateEntity.async_set_temperature hasScope (some none) none
        = { commands := [], outcome := .keyError, target := none }) ∧
    (∀ hasScope,
      TeslemetryCabinOverheatProtectionEntity.async_set_temperature hasScope
          (some none) none
        = { commands := [], outcome := .keyError, target := none }) ∧
    TeslemetryClimateEntity.async_set_temperature true (some (some q)) none
      = { commands := [.set_temps q q], outcome := .keyError, target := some q } ∧
    TeslemetryCabinOverheatProtectionEntity.async_set_temperature true
        (some (some 30)) none
      = { commands := [.set_cop_temp .low], outcome := .keyError, target := some 30 } := by
  refine ⟨?_, ?_, ?_, ?_, ?_, by decide⟩
  · intro hasScope mode
    rfl
  · intro hasScope mode
    rfl
  · intro hasScope
    cases hasScope <;> decide
  · intro hasScope
    cases hasScope <;> decide
  · simp [TeslemetryClimateEntity.async_set_temperature, climateAfterTempMode, hq0]

/-- Witness for C10_amended at the concrete temperature 20. -/
theorem C10_amended_witness :
    TeslemetryClimateEntity.async_set_temperature true (some (some 20)) none
      = { commands := [.set_temps 20 20], outcome := .keyError, target := some 20 } :=
  (C10_amended 20 (by decide)).2.2.2.2.1

/-- Claim C5 (confirmed): for every energy-history fetch result the output mapping
contains exactly the tracked fields (`ENERGY_HISTORY_FIELDS`, any duplicate-free field
list), each field equals the sum of that field over all time-bucket records with a
missing field contributing 0; with zero records every field is 0 and with two records
holding a and b the output is a+b.  The last conjunct ties the aggregation to
`TeslemetryEnergyHistoryCoordinator._async_update_data` itself. -/
theorem C5_history_aggregation (fields : List String) (series : List JVal)
    (hnd : fields.Nodup) :
    dkeys (energyHistoryAggregate fields series) = fields ∧
    (∀ k ∈ fields, dget (energyHistoryAggregate fields series) k
        = some (.num (seriesNum series k))) ∧
    (∀ k ∈ fields, dget (energyHistoryAggregate fields []) k = some (.num 0)) ∧
    (∀ k ∈ fields, ∀ a b : Int,
      dget (energyHistoryAggregate fields
          [JVal.dict [(k, .num a)], JVal.dict [(k, .num b)]]) k
        = some (.num (a + b))) ∧
    (∀ (st : EnergyState) (d : List (String × JVal)) (xs : List JVal),
      dget d "time_series" = some (.list xs) →
      (TeslemetryEnergyHistoryCoordinator.async_update_data fields st
          (.ok (.dict d))).2
        = .ok (energyHistoryAggregate fields xs)) := by
  have hinit : ∀ k ∈ fields, dget (initZeros fields) k = some (.num 0) := by
    intro k hk
    rw [initZeros_eq fields hnd]
    exact dget_map_const fields k hk
  have hkeys0 : dkeys (initZeros fields) = fields := by
    rw [initZeros_eq fields hnd]
    exact dkeys_map_const fields
  have hgen : ∀ (ser : List JVal), ∀ k ∈ fields,
      dget (energyHistoryAggregate fields ser) k = some (.num (seriesNum ser k)) := by
    intro ser k hk
    have := aggLoop_dget fields ser (initZeros fields) hnd k 0 hk (hinit k hk)
    simpa [energyHistoryAggregate] using this
  refine ⟨?_, hgen series, ?_, ?_, ?_⟩
  · have := aggLoop_dkeys fields series (initZeros fields)
      (fun k hk => by rw [hkeys0]; exact hk)
    simpa [energyHistoryAggregate, hkeys0] using this
  · intro k hk
    have := hgen [] k hk
    simpa [seriesNum] using this
  · intro k hk a b
    have := hgen [JVal.dict [(k, .num a)], JVal.dict [(k, .num b)]] k hk
    rw [this]
    have hser : seriesNum [JVal.dict [(k, .num a)], JVal.dict [(k, .num b)]] k
        = a + b := by
      simp [seriesNum, asDict, dget, numOf]
    rw [hser]
  · intro st d xs hts
    simp [TeslemetryEnergyHistoryCoordinator.async_update_data, asDict, hts]

/-- Witness for C5_history_aggregation on two concrete tracked fields with two
time-bucket records. -/
theorem C5_history_aggregation_witness :
    dkeys (energyHistoryAggregate ["solar_energy_exported", "grid_energy_imported"]
        [JVal.dict [("solar_energy_exported", .num 3)],
         JVal.dict [("solar_energy_exported", .num 4)]])
      = ["solar_energy_exported", "grid_energy_imported"] ∧
    dget (energyHistoryAggregate ["solar_energy_exported", "grid_energy_imported"]
        [JVal.dict [("solar_energy_exported", .num 3)],
         JVal.dict [("solar_energy_exported", .num 4)]]) "solar_energy_exported"
      = some (.num (3 + 4)) := by
  have h := C5_history_aggregation
    ["solar_energy_exported", "grid_energy_imported"]
    [JVal.dict [("solar_energy_exported", .num 3)],
     JVal.dict [("solar_energy_exported", .num 4)]] (by decide)
  exact ⟨h.1, (h.2.2.2.1 "solar_energy_exported" (by decide) 3 4 : _)⟩

/-- Claim C6 (confirmed): for every energy-live fetch result, when the
`wall_connectors` field is a sequence of records each with a unique `din`, the returned
data's `wall_connectors` is a mapping with exactly one entry per record, keyed by that
record's `din` and valued by the record itself; when the field is absent, not a
sequence, or the whole response is not a mapping, `wall_connectors` is the empty
mapping. -/
theorem C6_wall_connectors :
    (∀ (st : EnergyState) (d : List (String × JVal)) (xs : List JVal)
        (dins : List String),
      dget d "wall_connectors" = some (.list xs) →
      xs.map recordDin = dins.map some →
      dins.Nodup →
      (TeslemetryEnergySiteLiveCoordinator.async_update_data st (.ok (.dict d))).2
          = .ok (dset d "wall_connectors" (.dict (dins.zip xs))) ∧
      wallConnectorsDict xs = dins.zip xs ∧
      (dins.zip xs).length = xs.length ∧
      (∀ k x, (k, x) ∈ dins.zip xs → dget (dins.zip xs) k = some x)) ∧
    (∀ (st : EnergyState) (d : List (String × JVal)),
      wcFieldIsList d = false →
      (TeslemetryEnergySiteLiveCoordinator.async_update_data st (.ok (.dict d))).2
        = .ok (dset d "wall_connectors" (.dict []))) ∧
    (∀ (st : EnergyState) (v : JVal), isDictJ v = false →
      (TeslemetryEnergySiteLiveCoordinator.async_update_data st (.ok v)).2
        = .ok [("wall_connectors", .dict [])]) := by
  refine ⟨?_, ?_, ?_⟩
  · intro st d xs dins hwc hmap hnd
    have hlen : dins.length = xs.length := by
      have := congrArg List.length hmap
      simpa using this.symm
    refine ⟨?_, wallConnectorsDict_eq xs dins hmap hnd, ?_, ?_⟩
    · simp [TeslemetryEnergySiteLiveCoordinator.async_update_data, asDict, hwc,
            wallConnectorsDict_eq xs dins hmap hnd]
    · simp [List.length_zip, hlen]
    · intro k x hmem
      exact dget_zip_nodup dins xs hnd k x hmem
  · intro st d hno
    simp only [wcFieldIsList] at hno
    simp only [TeslemetryEnergySiteLiveCoordinator.async_update_data, asDict]
    split
    · next xs heq => rw [heq] at hno; simp at hno
    · rfl
  · intro st v hnd
    cases v <;> simp_all [isDictJ] <;>
      simp [TeslemetryEnergySiteLiveCoordinator.async_update_data, asDict, dget, dset]

/-- Witness for C6_wall_connectors on two concrete wall-connector records. -/
theorem C6_wall_connectors_witness :
    (TeslemetryEnergySiteLiveCoordinator.async_update_data
        { data := [], failures := 0 }
        (.ok (.dict [("wall_connectors",
          .list [.dict [("din", .str "WC1")], .dict [("din", .str "WC2")]])]))).2
      = .ok (dset [("wall_connectors",
          .list [.dict [("din", .str "WC1")], .dict [("din", .str "WC2")]])]
          "wall_connectors"
          (.dict (["WC1", "WC2"].zip
            [.dict [("din", .str "WC1")], .dict [("din", .str "WC2")]]))) :=
  (C6_wall_connectors.1 { data := [], failures := 0 }
    [("wall_connectors",
      .list [.dict [("din", .str "WC1")], .dict [("din", .str "WC2")]])]
    [.dict [("din", .str "WC1")], .dict [("din", .str "WC2")]]
    ["WC1", "WC2"] rfl rfl (by decide)).1

/-- Claim C1 (counterexample): the claim says the failure counter resets to 0 on any
success and on any terminal failure surfaced upward, for every coordinator.  The energy
coordinators never reset the counter on success: after two transient 5xx errors, a
success and a third transient error, the live coordinator surfaces `UpdateFailed`
(counter went 1, 2, 2, 3) although under the claim the success would have reset it to 0
and the last error would have been absorbed.  Likewise a terminal `TeslaFleetError` in
the vehicle coordinator leaves a counter of 2 at 2 instead of resetting it. -/
theorem C1_counterexample :
    (energyLiveStep (energyLiveStep (energyLiveStep
        { data := [], failures := 0 } (.err .internalServerError)).1
        (.err .internalServerError)).1 (.ok (.dict []))).1.failures = 2 ∧
    (energyLiveStep (energyLiveStep (energyLiveStep (energyLiveStep
        { data := [], failures := 0 } (.err .internalServerError)).1
        (.err .internalServerError)).1 (.ok (.dict []))).1
        (.err .internalServerError)).2 = .updateFailed "Multiple 5xx failures" ∧
    (vehicleHandleError
        { data := [("state", .str "online")], failures := 2, last_active := 0,
          update_interval := 30, updated_once := true, pre2021 := false }
        (.teslaFleetError "boom")).1.failures = 2 := by
  refine ⟨rfl, rfl, rfl⟩

/-- Claim C1 (amended): every coordinator's failure counter increments on each transient
server error and surfaces a hard update failure exactly when the incremented counter
exceeds 2, otherwise returning the cached data.  Only the vehicle coordinator resets the
counter, and only on a successful full-data fetch; the early returns for a non-online
vehicle leave it unchanged, the three energy coordinators never reset it on success, and
no coordinator resets it on a terminal failure surfaced upward. -/
theorem C1_amended :
    (∀ (st : VehState) (e : ApiError), is5xx e = true →
      (vehicleHandleError st e).1.failures = st.failures + 1 ∧
      (isUpdateFailedOutcome (vehicleHandleError st e).2 = true ↔
        st.failures + 1 > 2) ∧
      (st.failures + 1 ≤ 2 → (vehicleHandleError st e).2 = .ok st.data)) ∧
    (∀ (st : VehState) (now : Int) (summary : Fetch String)
        (raw : List (String × JVal)), isOnline st.data = true →
      (TeslemetryVehicleDataCoordinator.async_update_data st now summary
          (.ok raw)).1.failures = 0) ∧
    (∀ (st : VehState) (now : Int) (s : String)
        (fd : Fetch (List (String × JVal))),
      isOnline st.data = false → (s == ONLINE) = false →
      (TeslemetryVehicleDataCoordinator.async_update_data st now (.ok s)
          fd).1.failures = st.failures) ∧
    (∀ st : VehState,
      (vehicleHandleError st .vehicleOffline).1.failures = st.failures) ∧
    (∀ (st : VehState) (e : ApiError), is5xx e = false →
      (vehicleHandleError st e).1.failures = st.failures) ∧
    (∀ (f : Nat) (cached : List (String × JVal)) (e : ApiError), is5xx e = true →
      (energyHandleError f cached e).1 = f + 1 ∧
      (isUpdateFailedOutcome (energyHandleError f cached e).2 = true ↔ f + 1 > 2) ∧
      (f + 1 ≤ 2 → (energyHandleError f cached e).2 = .ok cached)) ∧
    (∀ (st : EnergyState) (v : JVal),
      (energyLiveStep st (.ok v)).1.failures = st.failures) ∧
    (∀ (st : EnergyState) (v : JVal),
      (TeslemetryEnergySiteInfoCoordinator.async_update_data st
          (.ok v)).1.failures = st.failures) ∧
    (∀ (fields : List String) (st : EnergyState) (v : JVal),
      (TeslemetryEnergyHistoryCoordinator.async_update_data fields st
          (.ok v)).1.failures = st.failures) ∧
    (∀ (f : Nat) (cached : List (String × JVal)) (e : ApiError), is5xx e = false →
      (energyHandleError f cached e).1 = f) := by
  refine ⟨?_, ?_, ?_, ?_, ?_, ?_, ?_, ?_, ?_, ?_⟩
  · intro st e he
    have heq : vehicleHandleError st e =
        (if st.failures + 1 > 2
          then ({ st with failures := st.failures + 1 },
            .updateFailed "Multiple 5xx failures")
          else ({ st with failures := st.failures + 1 }, .ok st.data)) := by
      cases e <;> (try rfl) <;> simp [is5xx] at he
    rw [heq]
    refine ⟨?_, ?_, ?_⟩
    · split_ifs <;> rfl
    · split_ifs with h <;> simp [isUpdateFailedOutcome, h]
    · intro hle
      split_ifs with h
      · omega
      · rfl
  · intro st now summary raw hOnline
    simp [TeslemetryVehicleDataCoordinator.async_update_data, hOnline,
          vehicleFetchPhase, vehicleActivityAdjust_failures]
  · intro st now s fd hOff hs
    simp [TeslemetryVehicleDataCoordinator.async_update_data, hOff, isOnline_dset, hs]
  · intro st
    rfl
  · intro st e he
    cases e <;> first | rfl | simp [is5xx] at he
  · intro f cached e he
    have heq : energyHandleError f cached e =
        (if f + 1 > 2 then (f + 1, .updateFailed "Multiple 5xx failures")
          else (f + 1, .ok cached)) := by
      cases e <;> (try rfl) <;> simp [is5xx] at he
    rw [heq]
    refine ⟨?_, ?_, ?_⟩
    · split_ifs <;> rfl
    · split_ifs with h <;> simp [isUpdateFailedOutcome, h]
    · intro hle
      split_ifs with h
      · omega
      · rfl
  · intro st v
    rfl
  · intro st v
    rfl
  · intro fields st v
    rfl
  · intro f cached e he
    cases e <;> first | rfl | simp [is5xx] at he

/-- Witness for C1_amended: the increments and the escalation threshold at concrete
counter values. -/
theorem C1_amended_witness :
    (vehicleHandleError
        { data := [], failures := 0, last_active := 0, update_interval := 30,
          updated_once := false, pre2021 := false }
        .internalServerError).1.failures = 0 + 1 ∧
    (energyHandleError 2 [] .serviceUnavailable).1 = 2 + 1 ∧
    (isUpdateFailedOutcome (energyHandleError 2 [] .serviceUnavailable).2 = true ↔
      2 + 1 > 2) := by
  refine ⟨(C1_amended.1 _ .internalServerError rfl).1,
          (C1_amended.2.2.2.2.2.1 2 [] .serviceUnavailable rfl).1,
          (C1_amended.2.2.2.2.2.1 2 [] .serviceUnavailable rfl).2.1⟩

/-- Claim C2 (confirmed): for a pre-2021 vehicle, on every successful full-data fetch:
if charging, user present or sentry mode is on, `last_active` resets to now and the
interval stays normal; otherwise an elapsed time above 20 minutes resets `last_active`
with a normal interval, an elapsed time in (15, 20] minutes switches to the extended
wait interval, and at 15 minutes or less everything stays; and the extended interval is
never set in any other case — in particular never for non-pre-2021 vehicles. -/
theorem C2_adaptive_cadence :
    (∀ (st : VehState) (now : Int) (summary : Fetch String)
        (raw : List (String × JVal)),
      isOnline st.data = true → st.pre2021 = true →
      ((vehicleIsActive raw = true →
          (vehicleTickState st now summary (.ok raw)).last_active = now ∧
          (vehicleTickState st now summary (.ok raw)).update_interval
            = VEHICLE_INTERVAL) ∧
       (vehicleIsActive raw = false → now - st.last_active > 20 * 60 →
          (vehicleTickState st now summary (.ok raw)).last_active = now ∧
          (vehicleTickState st now summary (.ok raw)).update_interval
            = VEHICLE_INTERVAL) ∧
       (vehicleIsActive raw = false → 15 * 60 < now - st.last_active →
          now - st.last_active ≤ 20 * 60 →
          (vehicleTickState st now summary (.ok raw)).update_interval
            = VEHICLE_WAIT ∧
          (vehicleTickState st now summary (.ok raw)).last_active
            = st.last_active) ∧
       (vehicleIsActive raw = false → now - st.last_active ≤ 15 * 60 →
          (vehicleTickState st now summary (.ok raw)).update_interval
            = VEHICLE_INTERVAL ∧
          (vehicleTickState st now summary (.ok raw)).last_active
            = st.last_active))) ∧
    (∀ (st : VehState) (now : Int) (summary : Fetch String)
        (fd : Fetch (List (String × JVal))), st.pre2021 = false →
      (vehicleTickState st now summary fd).update_interval = VEHICLE_INTERVAL) ∧
    (∀ (st : VehState) (now : Int) (summary : Fetch String)
        (fd : Fetch (List (String × JVal))),
      (vehicleTickState st now summary fd).update_interval = VEHICLE_WAIT →
      st.pre2021 = true ∧ ∃ raw, fd = .ok raw ∧ vehicleIsActive raw = false ∧
        15 * 60 < now - st.last_active ∧ now - st.last_active ≤ 20 * 60) := by
  have h30 : (VEHICLE_INTERVAL : Int) ≠ VEHICLE_WAIT := by decide
  refine ⟨?_, ?_, ?_⟩
  · intro st now summary raw hOnline hPre
    have hstate : vehicleTickState st now summary (.ok raw)
        = { vehicleActivityAdjust
              { st with update_interval := VEHICLE_INTERVAL, failures := 0 } now raw
            with updated_once := true } := by
      simp [vehicleTickState, TeslemetryVehicleDataCoordinator.async_update_data,
            hOnline, vehicleFetchPhase]
    refine ⟨?_, ?_, ?_, ?_⟩
    · intro ha
      rw [hstate]
      simp [vehicleActivityAdjust, hPre, ha]
    · intro ha helapsed
      rw [hstate]
      simp only [vehicleActivityAdjust, hPre, ha, if_true, Bool.false_eq_true,
                 if_false]
      split_ifs with h1 h2 <;> first | (constructor <;> rfl) | omega
    · intro ha h1 h2
      rw [hstate]
      simp only [vehicleActivityAdjust, hPre, ha, if_true, Bool.false_eq_true,
                 if_false]
      split_ifs with ha1 ha2 <;> first | (constructor <;> rfl) | omega
    · intro ha helapsed
      rw [hstate]
      simp only [vehicleActivityAdjust, hPre, ha, if_true, Bool.false_eq_true,
                 if_false]
      split_ifs with ha1 ha2 <;> first | (constructor <;> rfl) | omega
  · intro st now summary fd hPre
    cases hON : isOnline st.data with
    | true =>
      cases fd with
      | err e =>
        simp [vehicleTickState, TeslemetryVehicleDataCoordinator.async_update_data,
              hON, vehicleFetchPhase, vehicleHandleError_interval]
      | ok raw =>
        simp [vehicleTickState, TeslemetryVehicleDataCoordinator.async_update_data,
              hON, vehicleFetchPhase, vehicleActivityAdjust, hPre]
    | false =>
      cases summary with
      | err e =>
        simp [vehicleTickState, TeslemetryVehicleDataCoordinator.async_update_data,
              hON, vehicleHandleError_interval]
      | ok s =>
        cases hs : (s == ONLINE) with
        | true =>
          cases fd with
          | err e =>
            simp [vehicleTickState, TeslemetryVehicleDataCoordinator.async_update_data,
                  hON, isOnline_dset, hs, vehicleFetchPhase,
                  vehicleHandleError_interval]
          | ok raw =>
            simp [vehicleTickState, TeslemetryVehicleDataCoordinator.async_update_data,
                  hON, isOnline_dset, hs, vehicleFetchPhase, vehicleActivityAdjust,
                  hPre]
        | false =>
          simp [vehicleTickState, TeslemetryVehicleDataCoordinator.async_update_data,
                hON, isOnline_dset, hs]
  · intro st now summary fd hW
    cases hON : isOnline st.data with
    | true =>
      cases fd with
      | err e =>
        exfalso
        have hiv : (vehicleTickState st now summary (.err e)).update_interval
            = VEHICLE_INTERVAL := by
          simp [vehicleTickState, TeslemetryVehicleDataCoordinator.async_update_data,
                hON, vehicleFetchPhase, vehicleHandleError_interval]
        exact h30 (hiv.symm.trans hW)
      | ok raw =>
        have hstate : vehicleTickState st now summary (.ok raw)
            = { vehicleActivityAdjust
                  { st with update_interval := VEHICLE_INTERVAL, failures := 0 }
                  now raw
                with updated_once := true } := by
          simp [vehicleTickState, TeslemetryVehicleDataCoordinator.async_update_data,
                hON, vehicleFetchPhase]
        rw [hstate] at hW
        obtain ⟨hp, hact, h1, h2⟩ :=
          (vehicleActivityAdjust_wait_iff
            { st with update_interval := VEHICLE_INTERVAL, failures := 0 }
            now raw rfl).mp hW
        exact ⟨hp, raw, rfl, hact, h1, h2⟩
    | false =>
      cases summary with
      | err e =>
        exfalso
        have hiv : (vehicleTickState st now (.err e) fd).update_interval
            = VEHICLE_INTERVAL := by
          simp [vehicleTickState, TeslemetryVehicleDataCoordinator.async_update_data,
                hON, vehicleHandleError_interval]
        exact h30 (hiv.symm.trans hW)
      | ok s =>
        cases hs : (s == ONLINE) with
        | true =>
          cases fd with
          | err e =>
            exfalso
            have hiv : (vehicleTickState st now (.ok s) (.err e)).update_interval
                = VEHICLE_INTERVAL := by
              simp [vehicleTickState,
                    TeslemetryVehicleDataCoordinator.async_update_data, hON,
                    isOnline_dset, hs, vehicleFetchPhase,
                    vehicleHandleError_interval]
            exact h30 (hiv.symm.trans hW)
          | ok raw =>
            have hstate : vehicleTickState st now (.ok s) (.ok raw)
                = { vehicleActivityAdjust
                      { st with
                        update_interval := VEHICLE_INTERVAL,
                        data := dset st.data "state" (.str s),
                        failures := 0 }
                      now raw
                    with updated_once := true } := by
              simp [vehicleTickState,
                    TeslemetryVehicleDataCoordinator.async_update_data, hON,
                    isOnline_dset, hs, vehicleFetchPhase]
            rw [hstate] at hW
            obtain ⟨hp, hact, h1, h2⟩ :=
              (vehicleActivityAdjust_wait_iff
                { st with
                  update_interval := VEHICLE_INTERVAL,
                  data := dset st.data "state" (.str s),
                  failures := 0 }
                now raw rfl).mp hW
            exact ⟨hp, raw, rfl, hact, h1, h2⟩
        | false =>
          exfalso
          have hiv : (vehicleTickState st now (.ok s) fd).update_interval
              = VEHICLE_INTERVAL := by
            simp [vehicleTickState,
                  TeslemetryVehicleDataCoordinator.async_update_data, hON,
                  isOnline_dset, hs]
          exact h30 (hiv.symm.trans hW)

/-- Witness for C2_adaptive_cadence: a pre-2021 vehicle, online, inactive, 16 minutes
after `last_active`, switches to the extended wait interval. -/
theorem C2_adaptive_cadence_witness :
    (vehicleTickState
        { data := [("state", .str "online")], failures := 0, last_active := 0,
          update_interval := 30, updated_once := false, pre2021 := true }
        (16 * 60) (.ok "online") (.ok [])).update_interval = VEHICLE_WAIT :=
  ((C2_adaptive_cadence.1
      { data := [("state", .str "online")], failures := 0, last_active := 0,
        update_interval := 30, updated_once := false, pre2021 := true }
      (16 * 60) (.ok "online") [] rfl rfl).2.2.1 rfl (by decide) (by decide)).1

/-- Claim C3 (confirmed): on every vehicle tick where the vehicle is not online —
either the cached state remains not-online after the summary refresh, or the full-data
fetch raises `VehicleOffline` — the coordinator returns the prior cached snapshot with
no field changed except the `state` field, performs no full data fetch in the first case
(the result does not depend on the full-data fetch argument), and surfaces no error. -/
theorem C3_offline_frame :
    (∀ (st : VehState) (now : Int) (s : String)
        (fd fd' : Fetch (List (String × JVal))),
      isOnline st.data = false → (s == ONLINE) = false →
      TeslemetryVehicleDataCoordinator.async_update_data st now (.ok s) fd
        = TeslemetryVehicleDataCoordinator.async_update_data st now (.ok s) fd' ∧
      (TeslemetryVehicleDataCoordinator.async_update_data st now (.ok s) fd).2
        = .ok (dset st.data "state" (.str s)) ∧
      (TeslemetryVehicleDataCoordinator.async_update_data st now (.ok s) fd).1.data
        = dset st.data "state" (.str s) ∧
      (∀ k, k ≠ "state" →
        dget (TeslemetryVehicleDataCoordinator.async_update_data st now (.ok s)
            fd).1.data k
          = dget st.data k)) ∧
    (∀ (st : VehState) (now : Int) (summary : Fetch String),
      isOnline st.data = true →
      (TeslemetryVehicleDataCoordinator.async_update_data st now summary
          (.err .vehicleOffline)).2
        = .ok (dset st.data "state" (.str OFFLINE)) ∧
      (TeslemetryVehicleDataCoordinator.async_update_data st now summary
          (.err .vehicleOffline)).1.data
        = dset st.data "state" (.str OFFLINE) ∧
      (∀ k, k ≠ "state" →
        dget (TeslemetryVehicleDataCoordinator.async_update_data st now summary
            (.err .vehicleOffline)).1.data k
          = dget st.data k)) := by
  constructor
  · intro st now s fd fd' hOff hs
    have key : ∀ fd₀ : Fetch (List (String × JVal)),
        TeslemetryVehicleDataCoordinator.async_update_data st now (.ok s) fd₀
          = ({ st with
              update_interval := VEHICLE_INTERVAL,
              data := dset st.data "state" (.str s) },
            .ok (dset st.data "state" (.str s))) := by
      intro fd₀
      simp [TeslemetryVehicleDataCoordinator.async_update_data, hOff,
            isOnline_dset, hs]
    refine ⟨(key fd).trans (key fd').symm, ?_, ?_, ?_⟩
    · rw [key fd]
    · rw [key fd]
    · intro k hk
      rw [key fd]
      exact dget_dset_ne st.data "state" k (.str s) hk
  · intro st now summary hOn
    have key : TeslemetryVehicleDataCoordinator.async_update_data st now summary
          (.err .vehicleOffline)
        = ({ st with
            update_interval := VEHICLE_INTERVAL,
            data := dset st.data "state" (.str OFFLINE) },
          .ok (dset st.data "state" (.str OFFLINE))) := by
      simp [TeslemetryVehicleDataCoordinator.async_update_data, hOn,
            vehicleFetchPhase, vehicleHandleError]
    refine ⟨?_, ?_, ?_⟩
    · rw [key]
    · rw [key]
    · intro k hk
      rw [key]
      exact dget_dset_ne st.data "state" k (.str OFFLINE) hk

/-- Witness for C3_offline_frame: an asleep vehicle whose summary refresh still reports
"asleep" returns the cached snapshot unchanged, independently of the full-data fetch. -/
theorem C3_offline_frame_witness :
    (TeslemetryVehicleDataCoordinator.async_update_data
        { data := [("state", .str "asleep")], failures := 0, last_active := 0,
          update_interval := 30, updated_once := false, pre2021 := false }
        0 (.ok "asleep") (.ok [])).2
      = .ok (dset [("state", .str "asleep")] "state" (.str "asleep")) :=
  (C3_offline_frame.1
    { data := [("state", .str "asleep")], failures := 0, last_active := 0,
      update_interval := 30, updated_once := false, pre2021 := false }
    0 "asleep" (.ok []) (.err .typeError) rfl rfl).2.1
